import Mathlib

/-!
Verification of the Athena++ chemistry/radiation sources.

Shallow embedding of:
- `src/chemistry/network/gow16.hpp` — the GOW16 chemical network interface.
  The implementation file `gow16.cpp` is not part of the sources; functions
  declared in the header (GetGhostSpecies, UpdateRates, InitializeNextStep,
  RHS, Jacobian) are modelled from the specification document, as marked on
  each definition.
- `src/chemistry/network_wrapper.cpp` — CVODE wrapper functions.
- `src/radiation/radiation.cpp` — radiation moment calculation.

Machine doubles are modelled as real numbers.
-/

set_option maxHeartbeats 1000000
set_option linter.unusedVariables false

noncomputable section

/-- Number of tracked species of the GOW16 network (`NSPECIES`): the header
declares thirteen tracked-species indices iHeplus_ .. iE_. -/
def NSPECIES : ℕ := 13

/-- Number of ghost species, `ngs_ = 6` in gow16.hpp. -/
def ngs : ℕ := 6

/-- Length of the full abundance vector `yall[NSPECIES+ngs_]`. -/
def NTOT : ℕ := NSPECIES + ngs

/-- Tracked-species index iHeplus_. -/
def iHeplus : Fin 19 := 0

/-- Tracked-species index iOHx_. -/
def iOHx : Fin 19 := 1

/-- Tracked-species index iCHx_. -/
def iCHx : Fin 19 := 2

/-- Tracked-species index iCO_. -/
def iCO : Fin 19 := 3

/-- Tracked-species index iCplus_. -/
def iCplus : Fin 19 := 4

/-- Tracked-species index iHCOplus_. -/
def iHCOplus : Fin 19 := 5

/-- Tracked-species index iH2_. -/
def iH2 : Fin 19 := 6

/-- Tracked-species index iHplus_. -/
def iHplus : Fin 19 := 7

/-- Tracked-species index iH3plus_. -/
def iH3plus : Fin 19 := 8

/-- Tracked-species index iH2plus_. -/
def iH2plus : Fin 19 := 9

/-- Tracked-species index iOplus_. -/
def iOplus : Fin 19 := 10

/-- Tracked-species index iSiplus_. -/
def iSiplus : Fin 19 := 11

/-- Tracked-species index iE_ (internal energy slot). -/
def iE : Fin 19 := 12

/-- Ghost-species index igSi_ inside the full vector. -/
def igSi : Fin 19 := 13

/-- Ghost-species index igC_ inside the full vector. -/
def igC : Fin 19 := 14

/-- Ghost-species index igO_ inside the full vector. -/
def igO : Fin 19 := 15

/-- Ghost-species index igHe_ inside the full vector. -/
def igHe : Fin 19 := 16

/-- Ghost-species index ige_ inside the full vector. -/
def ige : Fin 19 := 17

/-- Ghost-species index igH_ inside the full vector. -/
def igH : Fin 19 := 18

/-- Standard elemental abundances of the network: the member variables
xHe_, xC_std_, xO_std_, xSi_std_ of gow16.hpp. -/
structure ElemAbund where
  xHe : ℝ
  xC_std : ℝ
  xO_std : ℝ
  xSi_std : ℝ

/-- Sum of tracked-species abundances containing carbon
(C+, CHx, CO, HCO+, one carbon atom each). -/
def carbonTracked (y : Fin 13 → ℝ) : ℝ :=
  y ⟨4, by norm_num⟩ + y ⟨2, by norm_num⟩ + y ⟨3, by norm_num⟩ + y ⟨5, by norm_num⟩

/-- Sum of tracked-species abundances containing oxygen
(OHx, CO, HCO+, O+, one oxygen atom each). -/
def oxygenTracked (y : Fin 13 → ℝ) : ℝ :=
  y ⟨1, by norm_num⟩ + y ⟨3, by norm_num⟩ + y ⟨5, by norm_num⟩ + y ⟨10, by norm_num⟩

/-- Total positive-ion abundance among the tracked species
(He+, C+, HCO+, H+, H3+, H2+, O+, Si+, each singly charged). -/
def ionTracked (y : Fin 13 → ℝ) : ℝ :=
  y ⟨0, by norm_num⟩ + y ⟨4, by norm_num⟩ + y ⟨5, by norm_num⟩ + y ⟨7, by norm_num⟩ +
  y ⟨8, by norm_num⟩ + y ⟨9, by norm_num⟩ + y ⟨11, by norm_num⟩ + y ⟨10, by norm_num⟩

/-- Hydrogen-nucleus-weighted sum of tracked-species abundances
(OHx, CHx, 2 H2, H+, 3 H3+, 2 H2+, HCO+). -/
def hydroTracked (y : Fin 13 → ℝ) : ℝ :=
  y ⟨1, by norm_num⟩ + y ⟨2, by norm_num⟩ + 2 * y ⟨6, by norm_num⟩ + y ⟨7, by norm_num⟩ +
  3 * y ⟨8, by norm_num⟩ + 2 * y ⟨9, by norm_num⟩ + y ⟨5, by norm_num⟩

/-- Modelled from the spec: `ChemNetwork::GetGhostSpecies` of gow16.cpp, whose
implementation is absent from the sources.  Per spec section 4.4, each elemental
ghost abundance is the standard elemental abundance minus the sum of
tracked-species abundances containing that element, floored at zero; the
electron ghost abundance is set by charge neutrality (total positive-ion
abundance), and every ghost abundance is floored at zero (spec section 3:
ghost-species abundances are always non-negative).  The tracked part of the
full vector is a copy of the input. -/
def GetGhostSpecies (p : ElemAbund) (y : Fin 13 → ℝ) : Fin 19 → ℝ := fun i =>
  if h : i.val < 13 then y ⟨i.val, h⟩
  else if i = igSi then max 0 (p.xSi_std - y ⟨11, by norm_num⟩)
  else if i = igC then max 0 (p.xC_std - carbonTracked y)
  else if i = igO then max 0 (p.xO_std - oxygenTracked y)
  else if i = igHe then max 0 (p.xHe - y ⟨0, by norm_num⟩)
  else if i = ige then max 0 (ionTracked y)
  else max 0 (1 - hydroTracked y)

/-- Concrete standard elemental abundances used as a witness input. -/
def wAbund : ElemAbund := ⟨1/10, 1/10, 1/10, 1/10⟩

/-- Concrete all-zero tracked abundance vector used as a witness input. -/
def wY : Fin 13 → ℝ := fun _ => 0

/-- Tracked abundance vector with a negative He+ entry, exercising the
zero-floor of the electron ghost abundance. -/
def wYneg : Fin 13 → ℝ := fun i => if i = (0 : Fin 13) then -1 else 0

/-!  ## CVODE wrapper (network_wrapper.cpp)  -/

/-- Embedding of `NetworkWrapper::WrapRHS` (network_wrapper.cpp lines 60-77):
copies the input vector, invokes the virtual RHS (modelled as the function
argument), writes the result into the output vector, and returns the flag 0.
The returned pair is (ydot contents, integer return flag). -/
def WrapRHS (n : ℕ) (rhs : ℝ → (Fin n → ℝ) → (Fin n → ℝ)) (t : ℝ)
    (y : Fin n → ℝ) : (Fin n → ℝ) × ℤ :=
  let t1 : ℝ := t
  let y1 : Fin n → ℝ := fun i => y i
  let ydot1 : Fin n → ℝ := rhs t1 y1
  (fun i => ydot1 i, 0)

/-- Embedding of `NetworkWrapper::WrapJacobian` (network_wrapper.cpp lines
27-58): copies y and fy, invokes the virtual Jacobian (modelled as the function
argument, returning the jacobian matrix and the three temporary vectors),
writes them to the output storage, and returns the flag 0. -/
def WrapJacobian (n : ℕ)
    (jacf : ℝ → (Fin n → ℝ) → (Fin n → ℝ) →
      ((Fin n → Fin n → ℝ) × (Fin n → ℝ) × (Fin n → ℝ) × (Fin n → ℝ)))
    (t : ℝ) (y fy : Fin n → ℝ) :
    ((Fin n → Fin n → ℝ) × (Fin n → ℝ) × (Fin n → ℝ) × (Fin n → ℝ)) × ℤ :=
  let t1 : ℝ := t
  let y1 : Fin n → ℝ := fun i => y i
  let fy1 : Fin n → ℝ := fun i => fy i
  let r := jacf t1 y1 fy1
  ((fun i j => r.1 i j, fun i => r.2.1 i, fun i => r.2.2.1 i, fun i => r.2.2.2 i), 0)

/-!  ## Radiation moments (radiation.cpp)  -/

/-- Index into the frequency-integrated moment array `rad_mom` (13 slots per
cell): energy density, flux, and the nine pressure-tensor components, in the
order they are reset and assigned in `Radiation::CalculateMoment`. -/
inductive MomIdx where
  | ER | FR1 | FR2 | FR3
  | PR11 | PR12 | PR13 | PR21 | PR22 | PR23 | PR31 | PR32 | PR33
deriving DecidableEq

/-- Angular data of one cell for the moment calculation: quadrature weights
wmu, frequency weights wfreq, specific intensities ir and the three direction
cosines mu, as read by `Radiation::CalculateMoment`. -/
structure RadCell where
  nfreq : ℕ
  nang : ℕ
  wmu : ℕ → ℝ
  wfreq : ℕ → ℝ
  ir : ℕ → ℕ → ℝ
  mux : ℕ → ℝ
  muy : ℕ → ℝ
  muz : ℕ → ℝ

/-- The weighted angular sum `Σ_n weight[n] * intensity[n] * f n` of the inner
loop of `Radiation::CalculateMoment` (radiation.cpp lines 177-188). -/
def angSum (r : RadCell) (ifr : ℕ) (f : ℕ → ℝ) : ℝ :=
  ∑ n ∈ Finset.range r.nang, r.wmu n * r.ir ifr n * f n

/-- One iteration of the frequency loop of `Radiation::CalculateMoment`
(radiation.cpp lines 165-219): the per-frequency angular sums are multiplied
by the frequency weight and accumulated, times 4π, into the moment array.
PR12 and PR21 both receive prxy, PR13 and PR31 both receive prxz, and PR23 and
PR32 both receive pryz, exactly as in the source assignments (lines 205-213). -/
def momStep (r : RadCell) (mom : MomIdx → ℝ) (ifr : ℕ) : MomIdx → ℝ :=
  let er := angSum r ifr (fun _ => 1) * r.wfreq ifr
  let frx := angSum r ifr (fun n => r.mux n) * r.wfreq ifr
  let fry := angSum r ifr (fun n => r.muy n) * r.wfreq ifr
  let frz := angSum r ifr (fun n => r.muz n) * r.wfreq ifr
  let prxx := angSum r ifr (fun n => r.mux n * r.mux n) * r.wfreq ifr
  let pryy := angSum r ifr (fun n => r.muy n * r.muy n) * r.wfreq ifr
  let przz := angSum r ifr (fun n => r.muz n * r.muz n) * r.wfreq ifr
  let prxy := angSum r ifr (fun n => r.mux n * r.muy n) * r.wfreq ifr
  let prxz := angSum r ifr (fun n => r.mux n * r.muz n) * r.wfreq ifr
  let pryz := angSum r ifr (fun n => r.muy n * r.muz n) * r.wfreq ifr
  fun m => mom m + 4 * Real.pi *
    (match m with
     | .ER => er | .FR1 => frx | .FR2 => fry | .FR3 => frz
     | .PR11 => prxx | .PR12 => prxy | .PR13 => prxz
     | .PR21 => prxy | .PR22 => pryy | .PR23 => pryz
     | .PR31 => prxz | .PR32 => pryz | .PR33 => przz)

/-- Embedding of `Radiation::CalculateMoment` for one cell: the moment array
is reset to zero (radiation.cpp lines 156-162) and the contribution of each
frequency is accumulated (lines 165-219). -/
def CalculateMoment (r : RadCell) : MomIdx → ℝ :=
  (List.range r.nfreq).foldl (momStep r) (fun _ => 0)

/-!  ## Reaction rates (gow16 RateUpdater, spec sections 4.1-4.3)  -/

/-- Network parameters of gow16.hpp: dust-to-gas ratio zdg_, fiducial
cosmic-ray rate cr_rate0_, grain electrostatic-parameter factor psi_gr_fac_,
the divide-by-zero guard small_, and the rate-law temperature validity range
temp_min_rates_, temp_max_rates_. -/
structure ChemParams where
  zdg : ℝ
  cr_rate0 : ℝ
  psi_gr_fac : ℝ
  small : ℝ
  temp_min_rates : ℝ
  temp_max_rates : ℝ

/-- The reaction-rate table (spec section 4.1 ReactionRateTable; the constant
parallel arrays and fit constants declared in gow16.hpp): base coefficients,
temperature exponents, photo AV factors, grain-recombination fit coefficients
cgr (cHp_, cCp_, cHep_, cSip_), the two-body override constants A_kCHx_,
n_kCHx_, c_kCHx_[4], Ti_kCHx_[4] and temp_coll_, the override entry indices
(the CH-forming entry and i2body_H_e, i2body_H2_H, i2body_H2_H2, whose
concrete values live in the missing gow16.cpp), the electron-recombination
fit coefficients of CII_rec_rate_, and the reactant/product wiring indices
into the full species vector. -/
structure RateTable where
  kcr_base : Fin 7 → ℝ
  incr : Fin 7 → Fin 19
  outcr : Fin 7 → Fin 19
  k2body_base : Fin 31 → ℝ
  k2Texp : Fin 31 → ℝ
  in2body1 : Fin 31 → Fin 19
  in2body2 : Fin 31 → Fin 19
  out2body1 : Fin 31 → Fin 19
  out2body2 : Fin 31 → Fin 19
  i2body_CHx : Fin 31
  i2body_H_e : Fin 31
  i2body_H2_H : Fin 31
  i2body_H2_H2 : Fin 31
  A_kCHx : ℝ
  n_kCHx : ℝ
  c_kCHx : Fin 4 → ℝ
  Ti_kCHx : Fin 4 → ℝ
  temp_coll : ℝ
  cCII : Fin 4 → ℝ
  kph_base : Fin 6 → ℝ
  kph_avfac : Fin 6 → ℝ
  inph : Fin 6 → Fin 19
  outph1 : Fin 6 → Fin 19
  ingr : Fin 5 → Fin 19
  outgr : Fin 5 → Fin 19
  cgr : Fin 5 → Fin 7 → ℝ

/-- Per-cell physical state snapshot (spec section 3 CellPhysicalState):
hydrogen number density, temperature, radiation field per frequency band
(n_freq_ = n_ph_ + 2 bands), cosmic-ray ionization rate and effective visual
extinction from the shielding columns. -/
structure CellState where
  nH : ℝ
  temperature : ℝ
  rad : Fin 8 → ℝ
  crRate : ℝ
  AV : ℝ

/-- Temperature clamp applied before every rate-law evaluation (spec section
3: temperature clamped to the range temp_min_rates_ .. temp_max_rates_). -/
def clampT (p : ChemParams) (T : ℝ) : ℝ :=
  min p.temp_max_rates (max p.temp_min_rates T)

/-- Modelled from the spec: the cosmic-ray rate law of
`ChemNetwork::UpdateRates` (gow16.cpp, absent from the sources).  Spec section
4.1: rate = base coefficient times the cosmic-ray ionization rate relative to
a fiducial value. -/
def kcr (tab : RateTable) (p : ChemParams) (s : CellState) (i : Fin 7) : ℝ :=
  tab.kcr_base i * (s.crRate / p.cr_rate0)

/-- Modelled from the spec: the 4-segment piecewise temperature fit overriding
the CH-forming two-body entry (spec section 4.1; the constants A_kCHx_,
n_kCHx_, c_kCHx_[4], Ti_kCHx_[4] of gow16.hpp; the numeric fit lives in the
missing gow16.cpp).  The segment coefficient is selected by the temperature
thresholds Ti and scales the power law. -/
def kCHx (A n : ℝ) (c Ti : Fin 4 → ℝ) (T : ℝ) : ℝ :=
  A * (T / 300) ^ n *
    (if T < Ti 1 then c 0
     else if T < Ti 2 then c 1
     else if T < Ti 3 then c 2
     else c 3)

/-- Modelled from the spec: the dedicated electron-recombination fit with its
own functional form (spec section 4.1; the helper CII_rec_rate_ declared in
gow16.hpp, implemented in the missing gow16.cpp): a radiative-recombination
fitting function with amplitude c 0, asymmetry exponent c 1 and knee
temperatures c 2 and c 3. -/
def CII_rec_rate (c : Fin 4 → ℝ) (T : ℝ) : ℝ :=
  c 0 / (Real.sqrt (T / c 2) * (1 + Real.sqrt (T / c 2)) ^ (1 - c 1) *
    (1 + Real.sqrt (T / c 3)) ^ (1 + c 1))

/-- Modelled from the spec: the two-body rate laws evaluated at an already
clamped temperature.  Spec section 4.1: rate = base coefficient times
(T/300K)^exponent, with selected entries overridden by piecewise analytic
fits — the 4-segment fit for the CH-forming entry, the dedicated
electron-recombination fit for the i2body_H_e entry, and the
collisional-dissociation entries i2body_H2_H, i2body_H2_H2 gated off below
temp_coll_ (gow16.hpp: collisional dissociation matters only above
temp_coll_).  The mass-action abundance factors enter in the kinetics core
(spec section 4.5), not here. -/
def k2bodyT (tab : RateTable) (T : ℝ) (i : Fin 31) : ℝ :=
  if i = tab.i2body_CHx then kCHx tab.A_kCHx tab.n_kCHx tab.c_kCHx tab.Ti_kCHx T
  else if i = tab.i2body_H_e then CII_rec_rate tab.cCII T
  else if i = tab.i2body_H2_H ∨ i = tab.i2body_H2_H2 then
    (if tab.temp_coll < T then tab.k2body_base i * (T / 300) ^ tab.k2Texp i else 0)
  else tab.k2body_base i * (T / 300) ^ tab.k2Texp i

/-- Modelled from the spec: the two-body rate entries of
`ChemNetwork::UpdateRates` (gow16.cpp, absent from the sources): the
temperature is clamped first (spec section 3), then the possibly overridden
rate law is evaluated. -/
def k2body (tab : RateTable) (p : ChemParams) (s : CellState) (i : Fin 31) : ℝ :=
  k2bodyT tab (clampT p s.temperature) i

/-- Modelled from the spec: the photo-reaction rate law of
`ChemNetwork::UpdateRates` (gow16.cpp, absent from the sources).  Spec section
4.1: rate = base coefficient times the radiation band value times
exp(-avfactor times visual extinction). -/
def kph (tab : RateTable) (p : ChemParams) (s : CellState) (i : Fin 6) : ℝ :=
  tab.kph_base i * s.rad (Fin.castLE (by norm_num) i) *
    Real.exp (-(tab.kph_avfac i) * s.AV)

/-- Modelled from the spec: the grain electrostatic parameter ψ (spec section
4.1: grain charging), a function of the clamped temperature and of the
free-electron abundance of the full abundance vector; a negative abundance
input is floored locally at the rate law (spec section 7) and the division is
guarded by the small_ constant of gow16.hpp. -/
def psi (p : ChemParams) (T : ℝ) (y : Fin 19 → ℝ) : ℝ :=
  p.psi_gr_fac * Real.sqrt T / (max 0 (y ige) + p.small)

/-- Modelled from the spec: the grain-assisted rate laws evaluated at an
already clamped temperature: the closed-form Weingartner-Draine 2001 fitting
function in ψ, parameterized by the seven per-ion coefficients cgr, scaled by
the dust-to-gas ratio (spec section 4.1). -/
def kgrT (tab : RateTable) (p : ChemParams) (y : Fin 19 → ℝ) (T : ℝ)
    (i : Fin 5) : ℝ :=
  let ps := psi p T y
  1e-14 * tab.cgr i 0 /
    (1 + tab.cgr i 1 * ps ^ tab.cgr i 2 *
      (1 + tab.cgr i 3 * T ^ tab.cgr i 4 *
        ps ^ (-(tab.cgr i 5) - tab.cgr i 6 * Real.log T))) * p.zdg

/-- Modelled from the spec: the grain-assisted rate entries of
`ChemNetwork::UpdateRates` (gow16.cpp, absent from the sources): temperature
clamped first, then the Weingartner-Draine fit evaluated on the abundance
vector. -/
def kgr (tab : RateTable) (p : ChemParams) (s : CellState) (y : Fin 19 → ℝ)
    (i : Fin 5) : ℝ :=
  kgrT tab p y (clampT p s.temperature) i

/-- Modelled from the spec: `ChemNetwork::UpdateRates(const Real
y[NSPECIES+ngs_])` (gow16.cpp, absent from the sources) consumes the full
abundance vector and the snapshotted cell state and writes the four rate
vectors kcr_, k2body_, kph_, kgr_ (spec sections 4.1 and 4.3); the
temperature is clamped before any rate-law evaluation. -/
def UpdateRates (tab : RateTable) (p : ChemParams) (s : CellState)
    (y : Fin 19 → ℝ) :
    (Fin 7 → ℝ) × (Fin 31 → ℝ) × (Fin 6 → ℝ) × (Fin 5 → ℝ) :=
  ⟨kcr tab p s, k2body tab p s, kph tab p s, kgr tab p s y⟩

/-- Validity of the rate table: all base coefficients, override fit
coefficients and grain fitting coefficients are non-negative (they are
physical rate coefficients). -/
def RateTable.Nonneg (tab : RateTable) : Prop :=
  (∀ i, 0 ≤ tab.kcr_base i) ∧ (∀ i, 0 ≤ tab.k2body_base i) ∧
  (∀ i, 0 ≤ tab.kph_base i) ∧ (∀ i j, 0 ≤ tab.cgr i j) ∧
  0 ≤ tab.A_kCHx ∧ (∀ i, 0 ≤ tab.c_kCHx i) ∧ 0 ≤ tab.cCII 0

/-- Validity of the network parameters: positive fiducial cosmic-ray rate and
divide-by-zero guard, non-negative dust-to-gas ratio and ψ factor,
non-negative ordered temperature clamp range. -/
def ChemParams.Valid (p : ChemParams) : Prop :=
  0 < p.cr_rate0 ∧ 0 ≤ p.zdg ∧ 0 ≤ p.psi_gr_fac ∧ 0 < p.small ∧
  0 ≤ p.temp_min_rates ∧ p.temp_min_rates ≤ p.temp_max_rates

/-- Validity of the cell state: non-negative cosmic-ray rate and radiation
field. -/
def CellState.Valid (s : CellState) : Prop :=
  0 ≤ s.crRate ∧ ∀ b, 0 ≤ s.rad b

/-- The cell state with the temperature replaced, all other fields kept. -/
def setTemp (s : CellState) (T : ℝ) : CellState :=
  ⟨s.nH, T, s.rad, s.crRate, s.AV⟩

/-- Concrete rate table used as a witness input. -/
def wTab : RateTable where
  kcr_base := fun _ => 1
  incr := fun _ => 6
  outcr := fun _ => 9
  k2body_base := fun _ => 1
  k2Texp := fun _ => 1
  in2body1 := fun _ => 6
  in2body2 := fun _ => 7
  out2body1 := fun _ => 8
  out2body2 := fun _ => 18
  i2body_CHx := 27
  i2body_H_e := 28
  i2body_H2_H := 15
  i2body_H2_H2 := 16
  A_kCHx := 1
  n_kCHx := 1
  c_kCHx := fun _ => 1
  Ti_kCHx := fun _ => 1
  temp_coll := 700
  cCII := fun _ => 1
  kph_base := fun _ => 1
  kph_avfac := fun _ => 1
  inph := fun _ => 3
  outph1 := fun _ => 14
  ingr := fun _ => 7
  outgr := fun _ => 18
  cgr := fun _ _ => 1

/-- Concrete network parameters used as a witness input. -/
def wPar : ChemParams where
  zdg := 1
  cr_rate0 := 1
  psi_gr_fac := 1
  small := 1
  temp_min_rates := 1
  temp_max_rates := 100

/-- Concrete cell state used as a witness input. -/
def wCell : CellState where
  nH := 1
  temperature := 10
  rad := fun _ => 1
  crRate := 1
  AV := 1

/-- Concrete cell state with zero radiation field and zero cosmic-ray rate,
same temperature as wCell. -/
def wCellDark : CellState where
  nH := 1
  temperature := 10
  rad := fun _ => 0
  crRate := 0
  AV := 1

/-- Concrete all-zero full abundance vector used as a witness input. -/
def wYfull : Fin 19 → ℝ := fun _ => 0

/-- Tracked abundance vector with the silicon budget exceeded (Si+ = 1) and
every other entry zero: the silicon ghost is floored while the carbon budget
is conserved. -/
def wYmix : Fin 13 → ℝ := fun i => if i = (11 : Fin 13) then 1 else 0

/-!  ## Kinetics core (gow16 RHS and Jacobian, spec section 4.5)  -/

/-- A reaction instance (spec section 3 ReactionDefinition): a concrete rate,
one or two reactant indices and one or two product indices into the full
species vector. -/
structure Reaction (m : ℕ) where
  rate : ℝ
  reac1 : Fin m
  reac2 : Option (Fin m)
  prod1 : Fin m
  prod2 : Option (Fin m)

/-- The reactant list of a reaction. -/
def Reaction.reactants {m : ℕ} (R : Reaction m) : List (Fin m) :=
  R.reac1 :: R.reac2.toList

/-- The product list of a reaction. -/
def Reaction.products {m : ℕ} (R : Reaction m) : List (Fin m) :=
  R.prod1 :: R.prod2.toList

/-- Net stoichiometric coefficient of species s in a reaction: production
count minus consumption count, so a reaction with two identical reactants
carries the combinatorial 2x destruction weight of spec section 4.5. -/
def Reaction.stoich {m : ℕ} (R : Reaction m) (s : Fin m) : ℤ :=
  (R.products.count s : ℤ) - (R.reactants.count s : ℤ)

/-- Mass-action term of a reaction: rate times the product of the reactant
abundances — linear in one abundance for cosmic-ray and photo reactions,
bilinear for two-body reactions (spec section 4.5). -/
def Reaction.massAction {m : ℕ} (R : Reaction m) (y : Fin m → ℝ) : ℝ :=
  R.rate * y R.reac1 *
    (match R.reac2 with
     | none => 1
     | some r => y r)

/-- The analytic partial derivative of the mass-action term with respect to
abundance j, as accumulated into the Jacobian. -/
def Reaction.dMassAction {m : ℕ} (R : Reaction m) (y : Fin m → ℝ) (j : Fin m) : ℝ :=
  match R.reac2 with
  | none => if R.reac1 = j then R.rate else 0
  | some r2 => R.rate * ((if R.reac1 = j then 1 else 0) * y r2 +
      y R.reac1 * (if r2 = j then 1 else 0))

/-- Modelled from the spec: `ChemNetwork::RHS` (gow16.cpp, absent from the
sources).  Spec section 4.5: for every species, ydot is the sum over all
reactions of the net stoichiometric coefficient times the mass-action term at
the frozen rates. -/
def RHS {m : ℕ} (rs : List (Reaction m)) (y : Fin m → ℝ) (i : Fin m) : ℝ :=
  (rs.map (fun R => (R.stoich i : ℝ) * R.massAction y)).sum

/-- Modelled from the spec: `ChemNetwork::Jacobian` (gow16.cpp, absent from
the sources).  Spec section 4.5: the analytic partial derivatives matching the
RHS exactly term-by-term. -/
def Jacobian {m : ℕ} (rs : List (Reaction m)) (y : Fin m → ℝ) (i j : Fin m) : ℝ :=
  (rs.map (fun R => (R.stoich i : ℝ) * R.dMassAction y j)).sum

/-!  ## Step context (gow16 InitializeNextStep, spec section 4.7)  -/

/-- The mutable per-cell state of ChemNetwork: the snapshotted cell inputs
(nH_, temperature_, rad_, cosmic-ray rate, extinction) and the four cached
rate vectors kcr_, k2body_, kph_, kgr_. -/
structure ChemNetworkState where
  nH : ℝ
  temperature : ℝ
  rad : Fin 8 → ℝ
  crRate : ℝ
  AV : ℝ
  kcr_v : Fin 7 → ℝ
  k2body_v : Fin 31 → ℝ
  kph_v : Fin 6 → ℝ
  kgr_v : Fin 5 → ℝ

/-- The per-cell inputs snapshotted by InitializeNextStep (the grid-indexed
density, temperature, radiation and shielding data, and the tracked abundance
vector of the cell read from the solver state). -/
structure CellInput where
  nH : ℝ
  temperature : ℝ
  rad : Fin 8 → ℝ
  crRate : ℝ
  AV : ℝ
  y : Fin 13 → ℝ

/-- The cell-state view of a cell input. -/
def CellInput.toCellState (c : CellInput) : CellState :=
  ⟨c.nH, c.temperature, c.rad, c.crRate, c.AV⟩

/-- Modelled from the spec: `ChemNetwork::InitializeNextStep` (gow16.cpp,
absent from the sources).  Spec sections 4.3 and 4.7: snapshots the cell
inputs, resolves the ghost species and invokes UpdateRates once on the full
abundance vector, writing the four rate vectors; it has no side effect beyond
writing the rate vector and reads nothing from the previous state. -/
def InitializeNextStep (tab : RateTable) (p : ChemParams) (ea : ElemAbund)
    (c : CellInput) (st : ChemNetworkState) : ChemNetworkState :=
  ⟨c.nH, c.temperature, c.rad, c.crRate, c.AV,
   (UpdateRates tab p c.toCellState (GetGhostSpecies ea c.y)).1,
   (UpdateRates tab p c.toCellState (GetGhostSpecies ea c.y)).2.1,
   (UpdateRates tab p c.toCellState (GetGhostSpecies ea c.y)).2.2.1,
   (UpdateRates tab p c.toCellState (GetGhostSpecies ea c.y)).2.2.2⟩

/-- The reaction instances seen by the kinetics core in a given network state:
each cosmic-ray, two-body, photo and grain reaction of the table paired with
its cached rate.  Cosmic-ray and photo reactions are linear in their single
reactant; two-body reactions are bilinear; for grain-assisted reactions the
grain abundance is folded into the rate coefficient (the zdg factor), leaving
one reactant (spec sections 4.1, 4.5). -/
def reactionsOf (tab : RateTable) (st : ChemNetworkState) : List (Reaction 19) :=
  ((List.finRange 7).map
    (fun i => ⟨st.kcr_v i, tab.incr i, none, tab.outcr i, none⟩)) ++
  ((List.finRange 31).map
    (fun i => ⟨st.k2body_v i, tab.in2body1 i, some (tab.in2body2 i),
      tab.out2body1 i, some (tab.out2body2 i)⟩)) ++
  ((List.finRange 6).map
    (fun i => ⟨st.kph_v i, tab.inph i, none, tab.outph1 i, none⟩)) ++
  ((List.finRange 5).map
    (fun i => ⟨st.kgr_v i, tab.ingr i, none, tab.outgr i, none⟩))

/-- The RHS exposed by the step context: the kinetics core evaluated on the
reactions at the cached rates. -/
def ctxRHS (tab : RateTable) (st : ChemNetworkState) (y : Fin 19 → ℝ)
    (i : Fin 19) : ℝ :=
  RHS (reactionsOf tab st) y i

/-- The Jacobian exposed by the step context. -/
def ctxJacobian (tab : RateTable) (st : ChemNetworkState) (y : Fin 19 → ℝ)
    (i j : Fin 19) : ℝ :=
  Jacobian (reactionsOf tab st) y i j

/-!  ## Theorems  -/
/-- Helper: one frequency-loop iteration preserves equality of two
pressure-tensor slots that are assigned the same angular sum. -/
theorem momStep_eq (r : RadCell) (mom : MomIdx → ℝ) (ifr : ℕ) (a b : MomIdx)
    (hfun : ∀ s t u v w x q z e c : ℝ,
      (match a with
       | .ER => s | .FR1 => t | .FR2 => u | .FR3 => v
       | .PR11 => w | .PR12 => x | .PR13 => q
       | .PR21 => x | .PR22 => z | .PR23 => e
       | .PR31 => q | .PR32 => e | .PR33 => c) =
      (match b with
       | .ER => s | .FR1 => t | .FR2 => u | .FR3 => v
       | .PR11 => w | .PR12 => x | .PR13 => q
       | .PR21 => x | .PR22 => z | .PR23 => e
       | .PR31 => q | .PR32 => e | .PR33 => c))
    (hmom : mom a = mom b) :
    momStep r mom ifr a = momStep r mom ifr b := by
  simp only [momStep]
  rw [hmom, hfun]

/-- Helper: the fold over the frequency loop preserves equality of two moment
slots whose per-frequency contributions agree. -/
theorem foldl_momStep_eq (r : RadCell) (a b : MomIdx)
    (hfun : ∀ s t u v w x q z e c : ℝ,
      (match a with
       | .ER => s | .FR1 => t | .FR2 => u | .FR3 => v
       | .PR11 => w | .PR12 => x | .PR13 => q
       | .PR21 => x | .PR22 => z | .PR23 => e
       | .PR31 => q | .PR32 => e | .PR33 => c) =
      (match b with
       | .ER => s | .FR1 => t | .FR2 => u | .FR3 => v
       | .PR11 => w | .PR12 => x | .PR13 => q
       | .PR21 => x | .PR22 => z | .PR23 => e
       | .PR31 => q | .PR32 => e | .PR33 => c)) :
    ∀ (l : List ℕ) (mom : MomIdx → ℝ), mom a = mom b →
      (l.foldl (momStep r) mom) a = (l.foldl (momStep r) mom) b := by
  intro l
  induction l with
  | nil => intro mom h; exact h
  | cons hd tl ih =>
      intro mom h
      exact ih (momStep r mom hd) (momStep_eq r mom hd a b hfun h)

/-- C10: after `Radiation::CalculateMoment`, the radiation pressure tensor is
symmetric at every cell: the PR12/PR21, PR13/PR31 and PR23/PR32 entries are
accumulated from the same angular sums (prxy, prxz, pryz) and are equal. -/
theorem C10_pressure_tensor_symmetric (r : RadCell) :
    CalculateMoment r .PR12 = CalculateMoment r .PR21 ∧
    CalculateMoment r .PR13 = CalculateMoment r .PR31 ∧
    CalculateMoment r .PR23 = CalculateMoment r .PR32 := by
  simp only [CalculateMoment]
  exact ⟨foldl_momStep_eq r .PR12 .PR21 (fun s t u v w x q z e c => rfl)
          (List.range r.nfreq) (fun _ => 0) rfl,
        foldl_momStep_eq r .PR13 .PR31 (fun s t u v w x q z e c => rfl)
          (List.range r.nfreq) (fun _ => 0) rfl,
        foldl_momStep_eq r .PR23 .PR32 (fun s t u v w x q z e c => rfl)
          (List.range r.nfreq) (fun _ => 0) rfl⟩

/-- C9: `NetworkWrapper::WrapRHS` and `NetworkWrapper::WrapJacobian` return 0
(the CVODE success flag) on every input; no input produces a nonzero error
flag. -/
theorem C9_wrappers_return_zero (n : ℕ)
    (rhs : ℝ → (Fin n → ℝ) → (Fin n → ℝ))
    (jacf : ℝ → (Fin n → ℝ) → (Fin n → ℝ) →
      ((Fin n → Fin n → ℝ) × (Fin n → ℝ) × (Fin n → ℝ) × (Fin n → ℝ)))
    (t : ℝ) (y fy : Fin n → ℝ) :
    (WrapRHS n rhs t y).2 = 0 ∧ (WrapJacobian n jacf t y fy).2 = 0 :=
  ⟨rfl, rfl⟩

/-- Evaluation of the resolver at the silicon ghost slot. -/
theorem GetGhostSpecies_igSi (p : ElemAbund) (y : Fin 13 → ℝ) :
    GetGhostSpecies p y igSi = max 0 (p.xSi_std - y ⟨11, by norm_num⟩) := rfl

/-- Evaluation of the resolver at the carbon ghost slot. -/
theorem GetGhostSpecies_igC (p : ElemAbund) (y : Fin 13 → ℝ) :
    GetGhostSpecies p y igC = max 0 (p.xC_std - carbonTracked y) := rfl

/-- Evaluation of the resolver at the oxygen ghost slot. -/
theorem GetGhostSpecies_igO (p : ElemAbund) (y : Fin 13 → ℝ) :
    GetGhostSpecies p y igO = max 0 (p.xO_std - oxygenTracked y) := rfl

/-- Evaluation of the resolver at the helium ghost slot. -/
theorem GetGhostSpecies_igHe (p : ElemAbund) (y : Fin 13 → ℝ) :
    GetGhostSpecies p y igHe = max 0 (p.xHe - y ⟨0, by norm_num⟩) := rfl

/-- Evaluation of the resolver at the electron ghost slot. -/
theorem GetGhostSpecies_ige (p : ElemAbund) (y : Fin 13 → ℝ) :
    GetGhostSpecies p y ige = max 0 (ionTracked y) := rfl

/-- Evaluation of the resolver at the atomic-hydrogen ghost slot. -/
theorem GetGhostSpecies_igH (p : ElemAbund) (y : Fin 13 → ℝ) :
    GetGhostSpecies p y igH = max 0 (1 - hydroTracked y) := rfl

/-- C2: after GetGhostSpecies, per element and independently of the other
elements, the ghost abundance of that element plus the sum of tracked-species
abundances containing it equals the configured standard elemental abundance
(carbon, oxygen, silicon, helium) whenever that element was not floored, and
the ghost abundance is zero where that element was floored — for every
tracked abundance vector, mixed-floor vectors included. -/
theorem C2_elemental_conservation (p : ElemAbund) (y : Fin 13 → ℝ) :
    (carbonTracked y ≤ p.xC_std →
      GetGhostSpecies p y igC + carbonTracked y = p.xC_std) ∧
    (oxygenTracked y ≤ p.xO_std →
      GetGhostSpecies p y igO + oxygenTracked y = p.xO_std) ∧
    (y ⟨11, by norm_num⟩ ≤ p.xSi_std →
      GetGhostSpecies p y igSi + y ⟨11, by norm_num⟩ = p.xSi_std) ∧
    (y ⟨0, by norm_num⟩ ≤ p.xHe →
      GetGhostSpecies p y igHe + y ⟨0, by norm_num⟩ = p.xHe) ∧
    (p.xC_std ≤ carbonTracked y → GetGhostSpecies p y igC = 0) ∧
    (p.xO_std ≤ oxygenTracked y → GetGhostSpecies p y igO = 0) ∧
    (p.xSi_std ≤ y ⟨11, by norm_num⟩ → GetGhostSpecies p y igSi = 0) ∧
    (p.xHe ≤ y ⟨0, by norm_num⟩ → GetGhostSpecies p y igHe = 0) := by
  rw [GetGhostSpecies_igC, GetGhostSpecies_igO, GetGhostSpecies_igSi,
    GetGhostSpecies_igHe]
  refine ⟨fun h => ?_, fun h => ?_, fun h => ?_, fun h => ?_,
    fun h => ?_, fun h => ?_, fun h => ?_, fun h => ?_⟩
  · rw [max_eq_right (sub_nonneg.mpr h)]
    ring
  · rw [max_eq_right (sub_nonneg.mpr h)]
    ring
  · rw [max_eq_right (sub_nonneg.mpr h)]
    ring
  · rw [max_eq_right (sub_nonneg.mpr h)]
    ring
  · rw [max_eq_left (sub_nonpos.mpr h)]
  · rw [max_eq_left (sub_nonpos.mpr h)]
  · rw [max_eq_left (sub_nonpos.mpr h)]
  · rw [max_eq_left (sub_nonpos.mpr h)]

/-- Witness for C2 at the mixed-floor vector wYmix: silicon is floored (its
ghost is zero) while carbon conservation still holds for the same vector. -/
theorem C2_elemental_conservation_witness :
    (GetGhostSpecies wAbund wYmix igC + carbonTracked wYmix = wAbund.xC_std) ∧
    GetGhostSpecies wAbund wYmix igSi = 0 :=
  ⟨(C2_elemental_conservation wAbund wYmix).1
      (by norm_num [carbonTracked, wYmix, wAbund, Fin.ext_iff, show ((11 : Fin 13) : ℕ) = 11 from rfl]),
   (C2_elemental_conservation wAbund wYmix).2.2.2.2.2.2.1
      (by norm_num [wYmix, wAbund, Fin.ext_iff, show ((11 : Fin 13) : ℕ) = 11 from rfl])⟩

/-- C3 counterexample: for the tracked vector with He+ abundance −1 (a small
negative residual, which resolver inputs are allowed to carry), the electron
ghost abundance is floored at zero and does not equal the total positive-ion
abundance −1. -/
theorem C3_charge_neutrality_counterexample :
    GetGhostSpecies wAbund wYneg ige ≠ ionTracked wYneg := by
  rw [GetGhostSpecies_ige]
  have h : ionTracked wYneg = -1 := by
    norm_num [ionTracked, wYneg, Fin.ext_iff]
  rw [h]
  norm_num [max_def]

/-- C3 (amended): after GetGhostSpecies, the free-electron ghost abundance
equals the total positive-ion abundance, provided that total is non-negative
(otherwise the electron ghost abundance is floored at zero). -/
theorem C3_charge_neutrality (p : ElemAbund) (y : Fin 13 → ℝ)
    (h : 0 ≤ ionTracked y) :
    GetGhostSpecies p y ige = ionTracked y := by
  rw [GetGhostSpecies_ige]
  exact max_eq_right h

/-- Witness for the amended C3 at the concrete all-zero abundance vector. -/
theorem C3_charge_neutrality_witness :
    GetGhostSpecies wAbund wY ige = ionTracked wY :=
  C3_charge_neutrality wAbund wY (by norm_num [ionTracked, wY])

/-- C4: GetGhostSpecies is a total function that never raises: on every
tracked abundance vector, small negative entries included, every ghost-species
slot of its output is non-negative (negative residuals are silently floored
at zero). -/
theorem C4_ghost_nonneg (p : ElemAbund) (y : Fin 13 → ℝ) (i : Fin 19)
    (h : 13 ≤ i.val) :
    0 ≤ GetGhostSpecies p y i := by
  unfold GetGhostSpecies
  rw [dif_neg (show ¬(i.val < 13) by omega)]
  split_ifs <;> exact le_max_left 0 _

/-- Witness for C4 at the electron ghost slot of the vector with a negative
He+ entry. -/
theorem C4_ghost_nonneg_witness :
    0 ≤ GetGhostSpecies wAbund wYneg ige :=
  C4_ghost_nonneg wAbund wYneg ige (by decide)

/-- Helper: the 4-segment CH fit is non-negative for non-negative amplitude,
segment coefficients and temperature. -/
theorem kCHx_nonneg (A n : ℝ) (c Ti : Fin 4 → ℝ) (T : ℝ) (hA : 0 ≤ A)
    (hc : ∀ i, 0 ≤ c i) (hT : 0 ≤ T) :
    0 ≤ kCHx A n c Ti T := by
  unfold kCHx
  refine mul_nonneg
    (mul_nonneg hA (Real.rpow_nonneg (div_nonneg hT (by norm_num)) _)) ?_
  split_ifs
  · exact hc 0
  · exact hc 1
  · exact hc 2
  · exact hc 3

/-- Helper: the electron-recombination fit is non-negative for a non-negative
amplitude, at every temperature. -/
theorem CII_rec_rate_nonneg (c : Fin 4 → ℝ) (T : ℝ) (hc : 0 ≤ c 0) :
    0 ≤ CII_rec_rate c T := by
  unfold CII_rec_rate
  refine div_nonneg hc ?_
  refine mul_nonneg (mul_nonneg (Real.sqrt_nonneg _) (Real.rpow_nonneg ?_ _))
    (Real.rpow_nonneg ?_ _)
  · exact add_nonneg zero_le_one (Real.sqrt_nonneg _)
  · exact add_nonneg zero_le_one (Real.sqrt_nonneg _)

/-- Helper: every two-body entry, overrides included, is non-negative at a
non-negative temperature when the table coefficients are non-negative. -/
theorem k2bodyT_nonneg (tab : RateTable) (T : ℝ) (i : Fin 31)
    (h2 : ∀ i, 0 ≤ tab.k2body_base i) (hA : 0 ≤ tab.A_kCHx)
    (hc : ∀ i, 0 ≤ tab.c_kCHx i) (hCII : 0 ≤ tab.cCII 0) (hT : 0 ≤ T) :
    0 ≤ k2bodyT tab T i := by
  unfold k2bodyT
  have hbase : 0 ≤ tab.k2body_base i * (T / 300) ^ tab.k2Texp i :=
    mul_nonneg (h2 i) (Real.rpow_nonneg (div_nonneg hT (by norm_num)) _)
  split_ifs
  · exact kCHx_nonneg _ _ _ _ _ hA hc hT
  · exact CII_rec_rate_nonneg _ _ hCII
  · exact hbase
  · exact le_refl 0
  · exact hbase

/-- C5: for every valid cell state, every abundance vector (negative entries
included: they are floored locally at the rate law, spec section 7) and every
rate table with non-negative coefficients, every entry of the four rate
vectors written by UpdateRates (kcr_, k2body_, kph_, kgr_), the two-body
overrides included, is greater than or equal to zero. -/
theorem C5_rate_nonneg (tab : RateTable) (p : ChemParams) (s : CellState)
    (y : Fin 19 → ℝ) (htab : tab.Nonneg) (hp : p.Valid) (hs : s.Valid) :
    (∀ i, 0 ≤ (UpdateRates tab p s y).1 i) ∧
    (∀ i, 0 ≤ (UpdateRates tab p s y).2.1 i) ∧
    (∀ i, 0 ≤ (UpdateRates tab p s y).2.2.1 i) ∧
    (∀ i, 0 ≤ (UpdateRates tab p s y).2.2.2 i) := by
  obtain ⟨h1, h2, h3, h4, hA, hc, hCII⟩ := htab
  obtain ⟨hcr0, hzdg, hpsi, hsmall, htmin, htle⟩ := hp
  obtain ⟨hcrr, hrad⟩ := hs
  have hT : 0 ≤ clampT p s.temperature := by
    unfold clampT
    exact le_min (le_trans htmin htle) (le_trans htmin (le_max_left _ _))
  refine ⟨fun i => ?_, fun i => ?_, fun i => ?_, fun i => ?_⟩
  · exact mul_nonneg (h1 i) (div_nonneg hcrr hcr0.le)
  · exact k2bodyT_nonneg tab (clampT p s.temperature) i h2 hA hc hCII hT
  · exact mul_nonneg (mul_nonneg (h3 i) (hrad _)) (Real.exp_pos _).le
  · show 0 ≤ kgr tab p s y i
    unfold kgr kgrT
    have hps : 0 ≤ psi p (clampT p s.temperature) y := by
      unfold psi
      refine div_nonneg (mul_nonneg hpsi (Real.sqrt_nonneg _)) ?_
      have hm := le_max_left (0:ℝ) (y ige)
      linarith
    have hinner : 0 ≤ tab.cgr i 3 * clampT p s.temperature ^ tab.cgr i 4 *
        psi p (clampT p s.temperature) y ^
          (-(tab.cgr i 5) - tab.cgr i 6 * Real.log (clampT p s.temperature)) :=
      mul_nonneg (mul_nonneg (h4 i 3) (Real.rpow_nonneg hT _))
        (Real.rpow_nonneg hps _)
    have houter : 0 ≤ tab.cgr i 1 *
        psi p (clampT p s.temperature) y ^ tab.cgr i 2 *
        (1 + tab.cgr i 3 * clampT p s.temperature ^ tab.cgr i 4 *
          psi p (clampT p s.temperature) y ^
            (-(tab.cgr i 5) - tab.cgr i 6 * Real.log (clampT p s.temperature))) :=
      mul_nonneg (mul_nonneg (h4 i 1) (Real.rpow_nonneg hps _)) (by linarith)
    have hden : (0:ℝ) < 1 + tab.cgr i 1 *
        psi p (clampT p s.temperature) y ^ tab.cgr i 2 *
        (1 + tab.cgr i 3 * clampT p s.temperature ^ tab.cgr i 4 *
          psi p (clampT p s.temperature) y ^
            (-(tab.cgr i 5) - tab.cgr i 6 * Real.log (clampT p s.temperature))) := by
      linarith
    exact mul_nonneg
      (div_nonneg (mul_nonneg (by norm_num) (h4 i 0)) hden.le) hzdg

/-- Witness for C5 at the concrete table, parameters, cell state and
abundance vector. -/
theorem C5_rate_nonneg_witness :
    0 ≤ (UpdateRates wTab wPar wCell wYfull).2.2.2 0 :=
  (C5_rate_nonneg wTab wPar wCell wYfull
    ⟨fun i => by norm_num [wTab], fun i => by norm_num [wTab],
     fun i => by norm_num [wTab], fun i j => by norm_num [wTab],
     by norm_num [wTab], fun i => by norm_num [wTab], by norm_num [wTab]⟩
    ⟨by norm_num [wPar], by norm_num [wPar], by norm_num [wPar],
     by norm_num [wPar], by norm_num [wPar], by norm_num [wPar]⟩
    ⟨by norm_num [wCell], fun b => by norm_num [wCell]⟩).2.2.2 0

/-- Helper: UpdateRates output is unchanged when the temperature is replaced
by one with the same clamped value: every rate law, the overrides included,
sees only the clamped temperature. -/
theorem UpdateRates_clamp_congr (tab : RateTable) (p : ChemParams)
    (s : CellState) (y : Fin 19 → ℝ) (X Y : ℝ)
    (hXY : clampT p X = clampT p Y) :
    UpdateRates tab p (setTemp s X) y = UpdateRates tab p (setTemp s Y) y := by
  have e2 : k2body tab p (setTemp s X) = k2body tab p (setTemp s Y) := by
    funext i
    show k2bodyT tab (clampT p X) i = k2bodyT tab (clampT p Y) i
    rw [hXY]
  have e4 : kgr tab p (setTemp s X) y = kgr tab p (setTemp s Y) y := by
    funext i
    show kgrT tab p y (clampT p X) i = kgrT tab p y (clampT p Y) i
    rw [hXY]
  unfold UpdateRates
  rw [e2, e4]
  rfl

/-- C7: temperature is clamped to the range temp_min_rates_ .. temp_max_rates_
before any rate-law evaluation, the piecewise two-body overrides included:
the rates computed at temperature temp_min_rates_ − 1 equal the rates computed
at temp_min_rates_, and the rates at any temperature above temp_max_rates_
equal the rates at temp_max_rates_. -/
theorem C7_temperature_clamp (tab : RateTable) (p : ChemParams) (s : CellState)
    (y : Fin 19 → ℝ) (h : p.temp_min_rates ≤ p.temp_max_rates) (T : ℝ)
    (hT : p.temp_max_rates ≤ T) :
    UpdateRates tab p (setTemp s (p.temp_min_rates - 1)) y =
      UpdateRates tab p (setTemp s p.temp_min_rates) y ∧
    UpdateRates tab p (setTemp s T) y =
      UpdateRates tab p (setTemp s p.temp_max_rates) y := by
  constructor
  · apply UpdateRates_clamp_congr
    unfold clampT
    rw [max_eq_left (by linarith), max_self]
  · apply UpdateRates_clamp_congr
    unfold clampT
    rw [max_eq_right (le_trans h hT), max_eq_right h, min_eq_left hT, min_self]

/-- Witness for C7 at the concrete table, parameters, cell state and abundance
vector, with the above-range temperature 200. -/
theorem C7_temperature_clamp_witness :
    UpdateRates wTab wPar (setTemp wCell (wPar.temp_min_rates - 1)) wYfull =
      UpdateRates wTab wPar (setTemp wCell wPar.temp_min_rates) wYfull :=
  (C7_temperature_clamp wTab wPar wCell wYfull (by norm_num [wPar]) 200
    (by norm_num [wPar])).1

/-- C8: in a cell whose radiation field is zero in all bands and whose
cosmic-ray ionization rate is zero, every photo-reaction rate and every
cosmic-ray reaction rate produced by UpdateRates is exactly zero, while the
two-body and grain-assisted rates depend only on temperature and abundances:
on the same abundance vector they agree with those of any cell state with the
same temperature, whatever its radiation field and cosmic-ray rate. -/
theorem C8_zero_radiation_rates (tab : RateTable) (p : ChemParams)
    (s : CellState) (y : Fin 19 → ℝ) (hrad : ∀ b, s.rad b = 0)
    (hcr : s.crRate = 0) (s2 : CellState)
    (hT : s2.temperature = s.temperature) :
    (∀ i, kph tab p s i = 0) ∧ (∀ i, kcr tab p s i = 0) ∧
    (∀ i, k2body tab p s i = k2body tab p s2 i) ∧
    (∀ i, kgr tab p s y i = kgr tab p s2 y i) := by
  refine ⟨fun i => ?_, fun i => ?_, fun i => ?_, fun i => ?_⟩
  · unfold kph
    rw [hrad]
    ring
  · unfold kcr
    rw [hcr]
    simp
  · show k2bodyT tab (clampT p s.temperature) i =
      k2bodyT tab (clampT p s2.temperature) i
    rw [hT]
  · show kgrT tab p y (clampT p s.temperature) i =
      kgrT tab p y (clampT p s2.temperature) i
    rw [hT]

/-- Witness for C8 at the concrete dark cell state, compared against the
irradiated cell state with the same temperature, on the concrete abundance
vector. -/
theorem C8_zero_radiation_rates_witness :
    kph wTab wPar wCellDark 0 = 0 :=
  (C8_zero_radiation_rates wTab wPar wCellDark wYfull
    (fun b => by norm_num [wCellDark]) (by norm_num [wCellDark])
    wCell (by norm_num [wCell, wCellDark])).1 0

/-- Helper: the derivative of the j-th coordinate of an updated vector is 1 on
the updated coordinate and 0 elsewhere. -/
theorem hasDerivAt_updateCoord {m : ℕ} (y : Fin m → ℝ) (j a : Fin m) (t0 : ℝ) :
    HasDerivAt (fun t => Function.update y j t a) (if a = j then 1 else 0) t0 := by
  by_cases h : a = j
  · subst h
    simp only [Function.update_same, if_pos rfl]
    exact hasDerivAt_id' t0
  · simp only [Function.update_noteq h, if_neg h]
    exact hasDerivAt_const t0 (y a)

/-- Helper: the mass-action term of one reaction has the analytic derivative
dMassAction with respect to each abundance coordinate. -/
theorem hasDerivAt_massAction {m : ℕ} (R : Reaction m) (y : Fin m → ℝ)
    (j : Fin m) :
    HasDerivAt (fun t => R.massAction (Function.update y j t))
      (R.dMassAction y j) (y j) := by
  unfold Reaction.massAction Reaction.dMassAction
  cases hR : R.reac2 with
  | none =>
      simp only
      have h2 := (hasDerivAt_updateCoord y j R.reac1 (y j)).const_mul R.rate
      have e : (fun t => R.rate * Function.update y j t R.reac1 * 1) =
          fun t => R.rate * Function.update y j t R.reac1 := by
        funext t
        ring
      rw [e]
      convert h2 using 1
      by_cases h : R.reac1 = j <;> simp [h]
  | some r2 =>
      simp only
      have h1 := (hasDerivAt_updateCoord y j R.reac1 (y j)).const_mul R.rate
      have hm := h1.mul (hasDerivAt_updateCoord y j r2 (y j))
      convert hm using 1
      simp only [Function.update_eq_self]
      ring

/-- Helper: the RHS assembled from a reaction list has the assembled Jacobian
as its coordinatewise derivative. -/
theorem hasDerivAt_RHS {m : ℕ} (rs : List (Reaction m)) (y : Fin m → ℝ)
    (i j : Fin m) :
    HasDerivAt (fun t => RHS rs (Function.update y j t) i)
      (Jacobian rs y i j) (y j) := by
  induction rs with
  | nil => simpa [RHS, Jacobian] using hasDerivAt_const (y j) (0:ℝ)
  | cons R tl ih =>
      have e1 : (fun t => RHS (R :: tl) (Function.update y j t) i) =
          fun t => (R.stoich i : ℝ) * R.massAction (Function.update y j t) +
            RHS tl (Function.update y j t) i := by
        funext t
        simp [RHS]
      have e2 : Jacobian (R :: tl) y i j =
          (R.stoich i : ℝ) * R.dMassAction y j + Jacobian tl y i j := by
        simp [Jacobian]
      rw [e1, e2]
      exact ((hasDerivAt_massAction R y j).const_mul _).add ih

/-- C1: the analytic Jacobian exposed by the network matches the RHS exactly:
for every abundance vector y and every species pair (i, j), ctxJacobian y i j
is the derivative of y_j ↦ ctxRHS y i — each reaction's contribution to the
RHS has an algebraically exact corresponding contribution to the Jacobian. -/
theorem C1_jacobian_exact (tab : RateTable) (st : ChemNetworkState)
    (y : Fin 19 → ℝ) (i j : Fin 19) :
    HasDerivAt (fun t => ctxRHS tab st (Function.update y j t) i)
      (ctxJacobian tab st y i j) (y j) :=
  hasDerivAt_RHS (reactionsOf tab st) y i j

/-- C6: InitializeNextStep is idempotent: applying it twice with identical
cell inputs yields the same state as applying it once, hence identical rate
vectors and identical outputs from every subsequent RHS and Jacobian call; it
writes nothing but the snapshot and rate vectors. -/
theorem C6_initialize_idempotent (tab : RateTable) (p : ChemParams)
    (ea : ElemAbund) (c : CellInput) (st : ChemNetworkState) :
    InitializeNextStep tab p ea c (InitializeNextStep tab p ea c st) =
      InitializeNextStep tab p ea c st ∧
    (∀ y i, ctxRHS tab (InitializeNextStep tab p ea c (InitializeNextStep tab p ea c st)) y i =
      ctxRHS tab (InitializeNextStep tab p ea c st) y i) ∧
    (∀ y i j, ctxJacobian tab (InitializeNextStep tab p ea c (InitializeNextStep tab p ea c st)) y i j =
      ctxJacobian tab (InitializeNextStep tab p ea c st) y i j) :=
  ⟨rfl, fun _ _ => rfl, fun _ _ _ => rfl⟩

